import Mathlib

/-!
Shallow embedding of the simply-writer editor client.

The networked variant (`src/frontend-web/src/App.vue`) keeps a text buffer,
a title, a tagged link state, the last-saved snapshot and an in-flight flag
as reactive cells; `loadContent`, `handleSaveFile` and `checkLink` mutate
them from network outcomes.  Here each of those handlers becomes an explicit
state-passing function: network outcomes (success payload / thrown error or
non-ok status) are an inductive argument, and observable effects that the
claims speak about — issued network calls, `alert` notices, POSTed request
bodies, `setTimeout` registrations — are recorded in dedicated fields of the
state.  The standalone variants' pure helpers (`purifyFilename`,
`downloadFilename` from `src/unnamed/part_001` / `part_002`, `syncPageHeight`,
`changeZoomLevel`) become pure Lean functions.  JavaScript numbers are
modelled as rationals: all zoom arithmetic in the source happens on
quarter/hundredth steps inside [0.5, 3], where double arithmetic and
`toFixed(2)` are exact, so the rational model agrees with the source there.
-/

namespace SimplyWriter

/-- The tagged link state of App.vue:
`type SaveState = { type: "unlinked" } | { type: "linked"; dirty: boolean }`. -/
inductive SaveState where
  | unlinked : SaveState
  | linked (dirty : Bool) : SaveState
deriving DecidableEq, Repr

/-- The JSON shape `{ content, title, saved }` POSTed by `handleSaveFile`
(`title` is the possibly-null `title.value`). -/
structure ContentMsg where
  content : String
  title : Option String
  saved : Bool
deriving DecidableEq, Repr

/-- Outcome of one `fetch` of `/api/content`: either a thrown error /
non-ok status (everything the `catch` arm sees), or a parsed JSON body
`{ content, title, saved }`. -/
inductive FetchResult where
  | failure : FetchResult
  | success (content : String) (ti : String) (saved : Bool) : FetchResult
deriving DecidableEq, Repr

/-- Outcome of one `fetch` of `/api/status` in `checkLink`: a thrown network
error, or a response carrying its `ok` flag. -/
inductive PollResult where
  | failure : PollResult
  | status (ok : Bool) : PollResult
deriving DecidableEq, Repr

/-- The reactive cells of App.vue that the synchronization logic reads and
writes, together with ledgers for the externally observable effects:
`networkCalls` counts issued `fetch`es, `alerts` counts `alert` calls,
`sentRequests` lists POSTed bodies, `scheduled` lists `setTimeout` delays. -/
structure ClientState where
  text : String
  title : Option String
  saveState : SaveState
  lastSavedContent : String
  isLoading : Bool
  networkCalls : Nat
  alerts : Nat
  sentRequests : List ContentMsg
  scheduled : List Nat
deriving DecidableEq, Repr

/-- Initial cell values: `text = ""`, `title = null`, `saveState` unlinked,
`lastSavedContent = ""`, `isLoading = false`. -/
def initState : ClientState :=
  { text := ""
  , title := none
  , saveState := SaveState.unlinked
  , lastSavedContent := ""
  , isLoading := false
  , networkCalls := 0
  , alerts := 0
  , sentRequests := []
  , scheduled := [] }

/-- `markLinked(dirty)`. -/
def markLinked (s : ClientState) (dirty : Bool) : ClientState :=
  { s with saveState := SaveState.linked dirty }

/-- `markUnlinked()`. -/
def markUnlinked (s : ClientState) : ClientState :=
  { s with saveState := SaveState.unlinked }

/-- `markDirty()`: sets the dirty flag only when the state is linked. -/
def markDirty (s : ClientState) : ClientState :=
  match s.saveState with
  | SaveState.linked _ => { s with saveState := SaveState.linked true }
  | SaveState.unlinked => s

/-- `markSaved()`: clears the dirty flag only when the state is linked. -/
def markSaved (s : ClientState) : ClientState :=
  match s.saveState with
  | SaveState.linked _ => { s with saveState := SaveState.linked false }
  | SaveState.unlinked => s

/-- The computed `isLinked`. -/
def ClientState.isLinked (s : ClientState) : Bool :=
  match s.saveState with
  | SaveState.linked _ => true
  | SaveState.unlinked => false

/-- The `watch(text, ...)` callback: the buffer has just changed to
`newText`; when linked, the new buffer is compared with the last-saved
snapshot and the state reclassified through `markSaved` / `markDirty`.
No fetch is made and no other cell is touched. -/
def watchText (s : ClientState) (newText : String) : ClientState :=
  let s1 := { s with text := newText }
  if s1.isLinked then
    if newText = s1.lastSavedContent then markSaved s1 else markDirty s1
  else s1

/-- The synchronous prefix of `loadContent` up to the `fetch`: the
reentrancy guard (`if (isLoading.value) return` — `none` means the call
returned without doing anything), then `isLoading = true` and the GET is
issued. -/
def loadStart (s : ClientState) : Option ClientState :=
  if s.isLoading then none
  else some { s with isLoading := true, networkCalls := s.networkCalls + 1 }

/-- The rest of `loadContent` once the GET has settled: on a parsed ok
response the title, buffer and snapshot adopt the fetched values and the
`saved` flag picks `markLinked(false)` or `markUnlinked()`; on a thrown
error or non-ok status the `catch` arm runs `markUnlinked()`.  The
`finally` arm clears `isLoading`. -/
def loadFinish (s : ClientState) (r : FetchResult) : ClientState :=
  match r with
  | FetchResult.success content ti saved =>
      let s1 := { s with title := some ti, text := content, lastSavedContent := content }
      let s2 := if saved then markLinked s1 false else markUnlinked s1
      { s2 with isLoading := false }
  | FetchResult.failure =>
      { markUnlinked s with isLoading := false }

/-- One whole `loadContent()` call whose fetch (if issued) settles as `r`. -/
def loadContent (s : ClientState) (r : FetchResult) : ClientState :=
  match loadStart s with
  | none => s
  | some s1 => loadFinish s1 r

/-- The synchronous prefix of `handleSaveFile` up to the `fetch`: the same
reentrancy guard, then `isLoading = true` and the POST is issued with body
`{ content: text.value, title: title.value, saved: false }`. -/
def saveStart (s : ClientState) : Option ClientState :=
  if s.isLoading then none
  else some { s with
      isLoading := true
    , networkCalls := s.networkCalls + 1
    , sentRequests := s.sentRequests ++
        [{ content := s.text, title := s.title, saved := false }] }

/-- The rest of `handleSaveFile` once the POST has settled: on a parsed ok
response the buffer, title and snapshot adopt the echoed values and the
echoed `saved` flag picks `markLinked(false)` or `markUnlinked()`; on a
thrown error or non-ok status the `catch` arm runs `markUnlinked()` and
raises the `alert`.  The `finally` arm clears `isLoading`. -/
def saveFinish (s : ClientState) (r : FetchResult) : ClientState :=
  match r with
  | FetchResult.success content ti saved =>
      let s1 := { s with text := content, title := some ti, lastSavedContent := content }
      let s2 := if saved then markLinked s1 false else markUnlinked s1
      { s2 with isLoading := false }
  | FetchResult.failure =>
      { markUnlinked s with alerts := s.alerts + 1, isLoading := false }

/-- One whole `handleSaveFile()` call whose fetch (if issued) settles as `r`. -/
def handleSaveFile (s : ClientState) (r : FetchResult) : ClientState :=
  match saveStart s with
  | none => s
  | some s1 => saveFinish s1 r

/-- `CHECK_LINK_MS = 1000 * 30`. -/
def CHECK_LINK_MS : Nat := 1000 * 30

/-- One whole `checkLink()` run: the status GET is issued (one network
call) and settles as `p`; a thrown error or a non-ok status runs
`markUnlinked()`; an ok status triggers `await loadContent()` exactly when
the state is `linked` and not dirty (that inner load's fetch settles as
`r`).  The `finally` arm always registers the next run via
`setTimeout(checkLink, CHECK_LINK_MS)`. -/
def checkLink (s : ClientState) (p : PollResult) (r : FetchResult) : ClientState :=
  let s0 := { s with networkCalls := s.networkCalls + 1 }
  let s1 :=
    match p with
    | PollResult.failure => markUnlinked s0
    | PollResult.status false => markUnlinked s0
    | PollResult.status true =>
        match s0.saveState with
        | SaveState.linked false => loadContent s0 r
        | _ => s0
  { s1 with scheduled := s1.scheduled ++ [CHECK_LINK_MS] }

/-- `HEIGHT = 1123`, the pixel height of an A4 page at 96 dpi. -/
def HEIGHT : Nat := 1123

/-- The height computation of `syncPageHeight`: the element's measured
natural scroll height is clamped from below by the nominal page height,
`pageHeightPx.value = Math.max(pageRef.value.scrollHeight, HEIGHT)`.
(The DOM style write-back and the scroll-offset restoration around it are
browser effects outside the embedding.) -/
def syncPageHeight (scrollHeight : Nat) : Nat :=
  max scrollHeight HEIGHT

/-- `Number(x.toFixed(2))`: rounding to two decimal places.  For the
nonnegative hundredth-step values zoom arithmetic produces, JavaScript's
half-away-from-zero decimal rounding agrees with `round`. -/
def round2 (q : ℚ) : ℚ := (round (q * 100) : ℚ) / 100

/-- `changeZoomLevel(delta)`:
`zoomLevel = Number(Math.max(0.5, Math.min(3, zoomLevel + delta)).toFixed(2))`. -/
def changeZoomLevel (z delta : ℚ) : ℚ :=
  round2 (max (1 / 2) (min 3 (z + delta)))

/-- `resetZoomLevel()` writes this constant into the zoom cell. -/
def resetZoomLevel : ℚ := 1

/-- The eight characters of the character class in
`raw.replace(/[\/:*?"<>|]/g, "_")` — an escaped forward slash, then
the seven punctuation characters; the backslash itself is not in the
class. -/
def reservedChars : List Char := ['/', ':', '*', '?', '"', '<', '>', '|']

/-- `purifyFilename` of `src/unnamed/part_001` / `part_002`: every
character of the class is replaced by an underscore. -/
def purifyFilename (raw : String) : String :=
  String.mk (raw.data.map (fun c => if c ∈ reservedChars then '_' else c))

/-- JavaScript `String.prototype.trim`: whitespace is dropped from both
ends. -/
def jsTrim (s : String) : String :=
  String.mk (((s.data.dropWhile Char.isWhitespace).reverse.dropWhile
      Char.isWhitespace).reverse)

/-- `DEFAULT_TITLE` of the standalone variants. -/
def DEFAULT_TITLE : String := "新文档"

/-- The `downloadFilename` computed property: the trimmed title when it is
non-empty, else the default title, suffixed with `.txt`. -/
def downloadFilename (ti : Option String) : String :=
  let trimmed := ti.map jsTrim
  let safe :=
    match trimmed with
    | some t => if t.length > 0 then t else DEFAULT_TITLE
    | none => DEFAULT_TITLE
  safe ++ ".txt"

/-- The state after the C1 scenario's initial load of
`{content:"hello", title:"doc", saved:true}`. -/
def c1Loaded : ClientState :=
  loadContent initState (FetchResult.success "hello" "doc" true)

/-- The C1 scenario state after the user types "!": the buffer becomes
"hello!" and the text watcher runs. -/
def c1Typed : ClientState := watchText c1Loaded "hello!"

/-- The C1 scenario state after the user deletes the "!" again. -/
def c1Reverted : ClientState := watchText c1Typed "hello"

/-- A state with a load or save currently in flight. -/
def loadingState : ClientState := { initState with isLoading := true }

/-- The state right after a first `handleSaveFile` call from `initState` has
issued its POST and is awaiting the response. -/
def c5Started : ClientState :=
  { initState with
      isLoading := true
    , networkCalls := 1
    , sentRequests := [{ content := "", title := none, saved := false }] }

/-- Rounding is monotone on rationals. -/
theorem round_le_round_q {a b : ℚ} (h : a ≤ b) : round a ≤ round b := by
  rw [round_eq, round_eq]
  exact Int.floor_mono (by linarith)

/-- Rounding to two decimal places fixes every whole multiple of 1/100. -/
theorem round2_exact (n : ℤ) : round2 ((n : ℚ) / 100) = (n : ℚ) / 100 := by
  unfold round2
  have h : (n : ℚ) / 100 * 100 = (n : ℚ) := by field_simp
  rw [h, round_intCast]

/-- Rounding to two decimal places keeps a value of [1/2, 3] inside [1/2, 3]. -/
theorem round2_bounds {q : ℚ} (h1 : 1 / 2 ≤ q) (h2 : q ≤ 3) :
    1 / 2 ≤ round2 q ∧ round2 q ≤ 3 := by
  have hlo : (50 : ℤ) ≤ round (q * 100) := by
    have h := round_le_round_q (a := ((50 : ℤ) : ℚ)) (b := q * 100) (by push_cast; linarith)
    rwa [round_intCast] at h
  have hhi : round (q * 100) ≤ (300 : ℤ) := by
    have h := round_le_round_q (a := q * 100) (b := ((300 : ℤ) : ℚ)) (by push_cast; linarith)
    rwa [round_intCast] at h
  have hlo2 : ((50 : ℤ) : ℚ) ≤ (round (q * 100) : ℚ) := by exact_mod_cast hlo
  have hhi2 : ((round (q * 100) : ℚ)) ≤ ((300 : ℤ) : ℚ) := by exact_mod_cast hhi
  unfold round2
  constructor <;> push_cast at hlo2 hhi2 <;> linarith

/-- When the sum is a whole multiple of 1/100 already inside the zoom bounds,
`changeZoomLevel` returns it unchanged. -/
theorem changeZoom_eq_of_mem (n : ℤ) (z d : ℚ) (hw : z + d = (n : ℚ) / 100)
    (h1 : 1 / 2 ≤ z + d) (h2 : z + d ≤ 3) : changeZoomLevel z d = z + d := by
  unfold changeZoomLevel
  rw [min_eq_right h2, max_eq_right h1, hw, round2_exact]

/-- When the sum reaches the upper bound, `changeZoomLevel` yields exactly 3. -/
theorem changeZoom_hi (z d : ℚ) (h : 3 ≤ z + d) : changeZoomLevel z d = 3 := by
  unfold changeZoomLevel
  rw [min_eq_left h, max_eq_right (by norm_num)]
  have h3 : (3 : ℚ) = ((300 : ℤ) : ℚ) / 100 := by norm_num
  rw [h3, round2_exact]

/-- When the sum reaches the lower bound, `changeZoomLevel` yields exactly 1/2. -/
theorem changeZoom_lo (z d : ℚ) (h : z + d ≤ 1 / 2) : changeZoomLevel z d = 1 / 2 := by
  unfold changeZoomLevel
  rw [min_eq_right (by linarith), max_eq_left h]
  have h3 : (1 / 2 : ℚ) = ((50 : ℤ) : ℚ) / 100 := by norm_num
  rw [h3, round2_exact]

/-- A `loadContent` call that is not guarded away issues exactly one fetch. -/
theorem loadContent_networkCalls (s : ClientState) (h : s.isLoading = false)
    (r : FetchResult) : (loadContent s r).networkCalls = s.networkCalls + 1 := by
  rcases r with _ | ⟨c, ti, sv⟩
  · simp [loadContent, loadStart, loadFinish, markLinked, markUnlinked, h]
  · cases sv <;>
      simp [loadContent, loadStart, loadFinish, markLinked, markUnlinked, h]

/-- `loadContent` never touches the `setTimeout` ledger. -/
theorem loadContent_scheduled (s : ClientState) (r : FetchResult) :
    (loadContent s r).scheduled = s.scheduled := by
  by_cases h : s.isLoading
  · simp [loadContent, loadStart, h]
  · rcases r with _ | ⟨c, ti, sv⟩
    · simp [loadContent, loadStart, loadFinish, markLinked, markUnlinked, h]
    · cases sv <;>
        simp [loadContent, loadStart, loadFinish, markLinked, markUnlinked, h]

/-- Every character of a `dropWhile` result is a character of the input. -/
theorem mem_of_mem_dropWhile {p : Char → Bool} {c : Char} :
    ∀ {l : List Char}, c ∈ l.dropWhile p → c ∈ l := by
  intro l
  induction l with
  | nil => simp [List.dropWhile]
  | cons a l ih =>
    intro h
    rw [List.dropWhile_cons] at h
    by_cases hp : p a
    · simp only [hp, if_true] at h
      exact List.mem_cons_of_mem _ (ih h)
    · simp only [hp, if_false] at h
      exact h

/-- Trimming only removes characters: every character of the trimmed string
is a character of the original. -/
theorem jsTrim_mem {s : String} {c : Char} (h : c ∈ (jsTrim s).data) : c ∈ s.data := by
  unfold jsTrim at h
  rw [List.mem_reverse] at h
  have h1 := mem_of_mem_dropWhile h
  rw [List.mem_reverse] at h1
  exact mem_of_mem_dropWhile h1

/-- No character of a `purifyFilename` result belongs to the replaced class. -/
theorem purify_not_reserved (raw : String) (c : Char)
    (h : c ∈ (purifyFilename raw).data) : c ∉ reservedChars := by
  unfold purifyFilename at h
  simp only [List.mem_map] at h
  obtain ⟨a, _, rfl⟩ := h
  by_cases ha : a ∈ reservedChars
  · rw [if_pos ha]
    decide
  · rwa [if_neg ha]

/-- C1: while the Link State is linked, the text watcher reclassifies the
state purely by comparing the new buffer with the last-saved snapshot — it
becomes dirty exactly when they differ and clean exactly when they agree —
and makes no network call; in the concrete scenario, loading
`content = "hello", saved = true` gives `linked false`, typing "!" gives
`linked true`, and deleting the "!" returns the state to `linked false`
with no further network call. -/
theorem watch_reclassifies_by_snapshot (s : ClientState) (t : String) (d : Bool)
    (hs : s.saveState = SaveState.linked d) :
    ((watchText s t).saveState =
        if t = s.lastSavedContent then SaveState.linked false else SaveState.linked true) ∧
    (watchText s t).networkCalls = s.networkCalls ∧
    (watchText s t).text = t ∧
    c1Loaded.saveState = SaveState.linked false ∧
    c1Loaded.text = "hello" ∧
    c1Typed.saveState = SaveState.linked true ∧
    c1Typed.text = "hello!" ∧
    c1Reverted.saveState = SaveState.linked false ∧
    c1Reverted.text = "hello" ∧
    c1Reverted.networkCalls = c1Loaded.networkCalls := by
  refine ⟨?_, ?_, ?_, by decide, by decide, by decide, by decide, by decide, by decide, by decide⟩
  · by_cases ht : t = s.lastSavedContent <;>
      simp [watchText, ClientState.isLinked, markSaved, markDirty, hs, ht]
  · by_cases ht : t = s.lastSavedContent <;>
      simp [watchText, ClientState.isLinked, markSaved, markDirty, hs, ht]
  · by_cases ht : t = s.lastSavedContent <;>
      simp [watchText, ClientState.isLinked, markSaved, markDirty, hs, ht]

/-- C1 witness: typing "!" after the scenario load marks the state dirty. -/
theorem watch_reclassifies_by_snapshot_w :
    (watchText c1Loaded "hello!").saveState = SaveState.linked true := by
  have h := (watch_reclassifies_by_snapshot c1Loaded "hello!" false (by decide)).1
  rw [if_neg (by decide)] at h
  exact h

/-- C2: a successful `loadContent` adopts the fetched content, title and
snapshot and sets the Link State to `linked false` when the server's `saved`
flag is true and to `unlinked` otherwise; a failed `loadContent` sets the
Link State to `unlinked` and leaves buffer and title unchanged. -/
theorem load_applies_response (s : ClientState) (h : s.isLoading = false)
    (c ti : String) (sv : Bool) :
    (loadContent s (FetchResult.success c ti sv)).text = c ∧
    (loadContent s (FetchResult.success c ti sv)).title = some ti ∧
    (loadContent s (FetchResult.success c ti sv)).lastSavedContent = c ∧
    (loadContent s (FetchResult.success c ti sv)).saveState =
      (if sv then SaveState.linked false else SaveState.unlinked) ∧
    (loadContent s FetchResult.failure).saveState = SaveState.unlinked ∧
    (loadContent s FetchResult.failure).text = s.text ∧
    (loadContent s FetchResult.failure).title = s.title := by
  cases sv <;>
    simp [loadContent, loadStart, loadFinish, markLinked, markUnlinked, h]

/-- C2 witness: loading "hello" from the initial state adopts the content,
and a failed load from the initial state leaves the state unlinked. -/
theorem load_applies_response_w :
    (loadContent initState (FetchResult.success "hello" "doc" true)).text = "hello" ∧
    (loadContent initState FetchResult.failure).saveState = SaveState.unlinked :=
  ⟨(load_applies_response initState rfl "hello" "doc" true).1,
   (load_applies_response initState rfl "hello" "doc" true).2.2.2.2.1⟩

/-- C3: a failed `handleSaveFile` sets the Link State to `unlinked`
whatever it was before, raises exactly one user-visible alert, and leaves
the buffer, the title and the last-saved snapshot unchanged. -/
theorem save_failure_unlinks_alerts_preserves (s : ClientState) (h : s.isLoading = false) :
    (handleSaveFile s FetchResult.failure).saveState = SaveState.unlinked ∧
    (handleSaveFile s FetchResult.failure).alerts = s.alerts + 1 ∧
    (handleSaveFile s FetchResult.failure).text = s.text ∧
    (handleSaveFile s FetchResult.failure).title = s.title ∧
    (handleSaveFile s FetchResult.failure).lastSavedContent = s.lastSavedContent := by
  simp [handleSaveFile, saveStart, saveFinish, markUnlinked, h]

/-- C3 witness: a failed save from the freshly loaded linked state unlinks
it and raises one alert. -/
theorem save_failure_unlinks_alerts_preserves_w :
    (handleSaveFile c1Loaded FetchResult.failure).saveState = SaveState.unlinked ∧
    (handleSaveFile c1Loaded FetchResult.failure).alerts = c1Loaded.alerts + 1 :=
  ⟨(save_failure_unlinks_alerts_preserves c1Loaded (by decide)).1,
   (save_failure_unlinks_alerts_preserves c1Loaded (by decide)).2.1⟩

/-- C4: a failed status poll (thrown fetch or non-ok response) unlinks the
state; on an ok response a `loadContent` is performed — a second network
call is made — exactly when the state is `linked false`, and in every other
state the run changes nothing beyond the poll's own bookkeeping. -/
theorem poll_reloads_iff_clean (s : ClientState) (h : s.isLoading = false)
    (r : FetchResult) :
    (checkLink s PollResult.failure r).saveState = SaveState.unlinked ∧
    (checkLink s (PollResult.status false) r).saveState = SaveState.unlinked ∧
    (((checkLink s (PollResult.status true) r).networkCalls = s.networkCalls + 2) ↔
        s.saveState = SaveState.linked false) ∧
    (s.saveState ≠ SaveState.linked false →
        checkLink s (PollResult.status true) r =
          { s with networkCalls := s.networkCalls + 1,
                   scheduled := s.scheduled ++ [CHECK_LINK_MS] }) ∧
    (s.saveState = SaveState.linked false →
        checkLink s (PollResult.status true) r =
          (let s2 := loadContent { s with networkCalls := s.networkCalls + 1 } r
           { s2 with scheduled := s2.scheduled ++ [CHECK_LINK_MS] })) := by
  refine ⟨by simp [checkLink, markUnlinked], by simp [checkLink, markUnlinked], ?_, ?_, ?_⟩
  · constructor
    · intro hcalls
      by_contra hne
      have heq : checkLink s (PollResult.status true) r =
          { s with networkCalls := s.networkCalls + 1,
                   scheduled := s.scheduled ++ [CHECK_LINK_MS] } := by
        rcases hss : s.saveState with _ | d
        · simp [checkLink, hss]
        · cases d
          · exact absurd hss hne
          · simp [checkLink, hss]
      rw [heq] at hcalls
      simp at hcalls
    · intro hss
      have hcalls := loadContent_networkCalls
        { s with networkCalls := s.networkCalls + 1 } h r
      rw [hss] at hcalls
      simp only [checkLink, hss]
      rw [hcalls]
  · intro hne
    rcases hss : s.saveState with _ | d
    · simp [checkLink, hss]
    · cases d
      · exact absurd hss hne
      · simp [checkLink, hss]
  · intro hss
    simp [checkLink, hss]

/-- C4 witness: an ok poll in the clean linked state performs a reload,
making a second network call. -/
theorem poll_reloads_iff_clean_w :
    (checkLink c1Loaded (PollResult.status true) FetchResult.failure).networkCalls =
      c1Loaded.networkCalls + 2 :=
  ((poll_reloads_iff_clean c1Loaded (by decide) FetchResult.failure).2.2.1).mpr (by decide)

/-- C5: the in-flight guard makes `loadContent` and `handleSaveFile` exact
no-ops — no state change, no network call — whenever a load or save is
already outstanding; in particular a second `handleSaveFile` issued right
after a first one has started leaves the network-call count at one. -/
theorem single_inflight_guard (s : ClientState) (r : FetchResult) (h : s.isLoading = true)
    (s0 : ClientState) (h0 : s0.isLoading = false) (s1 : ClientState)
    (hstart : saveStart s0 = some s1) :
    loadContent s r = s ∧ handleSaveFile s r = s ∧
    s1.isLoading = true ∧ handleSaveFile s1 r = s1 ∧ loadContent s1 r = s1 ∧
    s1.networkCalls = s0.networkCalls + 1 ∧
    (handleSaveFile s1 r).networkCalls = s0.networkCalls + 1 := by
  have hguard : ∀ u : ClientState, u.isLoading = true →
      loadContent u r = u ∧ handleSaveFile u r = u := by
    intro u hu
    constructor
    · simp [loadContent, loadStart, hu]
    · simp [handleSaveFile, saveStart, hu]
  simp only [saveStart, h0, Bool.false_eq_true, if_false, Option.some.injEq] at hstart
  have h1load : s1.isLoading = true := by rw [← hstart]
  have h1calls : s1.networkCalls = s0.networkCalls + 1 := by rw [← hstart]
  refine ⟨(hguard s h).1, (hguard s h).2, h1load, (hguard s1 h1load).2,
    (hguard s1 h1load).1, h1calls, ?_⟩
  rw [(hguard s1 h1load).2, h1calls]

/-- C5 witness: a save issued while a save is in flight is a no-op and
leaves exactly one recorded network call. -/
theorem single_inflight_guard_w :
    handleSaveFile loadingState FetchResult.failure = loadingState ∧
    handleSaveFile c5Started FetchResult.failure = c5Started ∧
    (handleSaveFile c5Started FetchResult.failure).networkCalls =
      initState.networkCalls + 1 := by
  have h := single_inflight_guard loadingState FetchResult.failure rfl
    initState rfl c5Started (by decide)
  exact ⟨h.2.1, h.2.2.2.1, h.2.2.2.2.2.2⟩

/-- C6: every `checkLink` run — failed fetch, non-ok response, ok response
with or without reload — registers exactly one next run, at the fixed
30-second (30000 ms) delay. -/
theorem poll_always_reschedules (s : ClientState) (p : PollResult) (r : FetchResult) :
    (checkLink s p r).scheduled = s.scheduled ++ [CHECK_LINK_MS] ∧
    CHECK_LINK_MS = 30000 := by
  refine ⟨?_, rfl⟩
  rcases p with _ | ok
  · simp [checkLink, markUnlinked]
  · cases ok
    · simp [checkLink, markUnlinked]
    · rcases hss : s.saveState with _ | d
      · simp [checkLink, hss]
      · cases d
        · simp [checkLink, hss, loadContent_scheduled]
        · simp [checkLink, hss]

/-- C7 counterexample: at the upper bound the +0.25 then -0.25 pair does not
return to the prior zoom — from 3.0 it lands at 2.75. -/
theorem zoom_roundtrip_drifts_at_bound :
    changeZoomLevel (changeZoomLevel 3 (1 / 4)) (-(1 / 4)) ≠ 3 := by
  have h1 : changeZoomLevel 3 (1 / 4) = 3 := changeZoom_hi 3 (1 / 4) (by norm_num)
  have h2 : changeZoomLevel 3 (-(1 / 4)) = 11 / 4 := by
    have h := changeZoom_eq_of_mem 275 3 (-(1 / 4)) (by norm_num) (by norm_num) (by norm_num)
    rw [h]; norm_num
  rw [h1, h2]
  norm_num

/-- C7 (amended): `changeZoomLevel` keeps the zoom inside [0.5, 3], yields
exactly the bound when the sum would cross it, rounds to two decimals, and
`resetZoomLevel` is exactly 1; the +0.25 then -0.25 pair (either order) returns
a whole-hundredth zoom to its exact prior value whenever the intermediate
sum stays within the bounds — at a bound the clamp engages instead. -/
theorem zoom_clamped_rounded_roundtrip (z d : ℚ) :
    (1 / 2 ≤ changeZoomLevel z d ∧ changeZoomLevel z d ≤ 3) ∧
    (3 ≤ z + d → changeZoomLevel z d = 3) ∧
    (z + d ≤ 1 / 2 → changeZoomLevel z d = 1 / 2) ∧
    resetZoomLevel = 1 ∧
    (∀ n : ℤ, z = (n : ℚ) / 100 → 1 / 2 ≤ z → z ≤ 3 →
      (z + 1 / 4 ≤ 3 → changeZoomLevel (changeZoomLevel z (1 / 4)) (-(1 / 4)) = z) ∧
      (1 / 2 ≤ z - 1 / 4 → changeZoomLevel (changeZoomLevel z (-(1 / 4))) (1 / 4) = z)) := by
  refine ⟨?_, changeZoom_hi z d, changeZoom_lo z d, rfl, ?_⟩
  · exact round2_bounds (le_max_left _ _) (max_le (by norm_num) (min_le_left _ _))
  · intro n hn h1 h3
    constructor
    · intro hup
      have hstep : changeZoomLevel z (1 / 4) = z + 1 / 4 := by
        refine changeZoom_eq_of_mem (n + 25) z (1 / 4) ?_ (by linarith) hup
        rw [hn]; push_cast; ring
      rw [hstep]
      have hback : (z + 1 / 4) + -(1 / 4) = z := by ring
      have h := changeZoom_eq_of_mem n (z + 1 / 4) (-(1 / 4)) (by rw [hback, hn])
        (by rw [hback]; exact h1) (by rw [hback]; exact h3)
      rw [h, hback]
    · intro hdn
      have hstep : changeZoomLevel z (-(1 / 4)) = z - 1 / 4 := by
        have h := changeZoom_eq_of_mem (n - 25) z (-(1 / 4)) ?_ (by linarith) (by linarith)
        · rw [h]; ring
        · rw [hn]; push_cast; ring
      rw [hstep]
      have hback : (z - 1 / 4) + 1 / 4 = z := by ring
      have h := changeZoom_eq_of_mem n (z - 1 / 4) (1 / 4) (by rw [hback, hn])
        (by rw [hback]; exact h1) (by rw [hback]; exact h3)
      rw [h, hback]

/-- C7 witness: away from the bounds the +0.25 then -0.25 pair is exact: from
zoom 1 it returns to exactly 1. -/
theorem zoom_clamped_rounded_roundtrip_w :
    changeZoomLevel (changeZoomLevel 1 (1 / 4)) (-(1 / 4)) = 1 :=
  ((zoom_clamped_rounded_roundtrip 1 0).2.2.2.2 100 (by norm_num) (by norm_num)
      (by norm_num)).1 (by norm_num)

/-- C8: the synchronized page height is the maximum of the measured natural
height and the nominal A4 height, so it is at least both; any measurement
at most one page — an empty document included — yields exactly the nominal
height, which is positive, never zero. -/
theorem pageHeight_min_clamped (m : Nat) :
    HEIGHT ≤ syncPageHeight m ∧ m ≤ syncPageHeight m ∧
    (m ≤ HEIGHT → syncPageHeight m = HEIGHT) ∧ 0 < syncPageHeight m := by
  refine ⟨le_max_right _ _, le_max_left _ _, fun hm => max_eq_right hm, ?_⟩
  exact lt_of_lt_of_le (by norm_num [HEIGHT]) (le_max_right _ _)

/-- C8 witness: a zero measurement yields the nominal height and an
over-page measurement is kept. -/
theorem pageHeight_min_clamped_w :
    syncPageHeight 0 = HEIGHT ∧ syncPageHeight 5000 = 5000 := by
  refine ⟨(pageHeight_min_clamped 0).2.2.1 (Nat.zero_le _), ?_⟩
  have h := (pageHeight_min_clamped 5000).2.1
  have h2 : syncPageHeight 5000 ≤ 5000 := by
    simp [syncPageHeight, HEIGHT]
  omega

/-- C9 counterexample: the backslash — the Windows path separator, one of
the reserved filesystem characters — is not in the replaced class, so the
title followed by backslash followed by the letter b sanitizes to itself and
the backslash survives into the download filename. -/
theorem sanitize_keeps_backslash :
    purifyFilename "a\\b" = "a\\b" ∧
    '\\' ∈ (downloadFilename (some (purifyFilename "a\\b"))).data := by
  constructor
  · decide
  · decide

/-- C9 (amended): the sanitization replaces each of the eight characters of
the class — forward slash, colon, asterisk, question mark, double quote,
angle brackets and pipe — with an underscore, so the download filename is
the sanitized base followed by ".txt" and that base contains none of those
eight characters (the backslash is not stripped). -/
theorem export_filename_sanitized (raw : String) :
    (∀ c, c ∈ (purifyFilename raw).data → c ∉ reservedChars) ∧
    (∃ base : String,
      downloadFilename (some (purifyFilename raw)) = base ++ ".txt" ∧
      ∀ c, c ∈ base.data → c ∉ reservedChars) := by
  refine ⟨purify_not_reserved raw, ?_⟩
  unfold downloadFilename
  simp only [Option.map_some]
  by_cases hlen : (jsTrim (purifyFilename raw)).length > 0
  · refine ⟨jsTrim (purifyFilename raw), by simp [hlen], ?_⟩
    intro c hc
    exact purify_not_reserved raw c (jsTrim_mem hc)
  · refine ⟨DEFAULT_TITLE, by simp [hlen], ?_⟩
    intro c hc
    have hc3 : c = '新' ∨ c = '文' ∨ c = '档' := by
      simpa [DEFAULT_TITLE] using hc
    rcases hc3 with rfl | rfl | rfl <;> decide

/-- C9 witness: a sanitized title contains no forward slash. -/
theorem export_filename_sanitized_w :
    '/' ∉ (purifyFilename "a/b").data :=
  fun hmem => ((export_filename_sanitized "a/b").1 '/' hmem) (by decide)

/-- C10: every POST `handleSaveFile` sends carries `saved: false` in its
body regardless of the current state, and the persisted status the client
adopts afterwards is decided solely by the `saved` flag of the server's
response. -/
theorem save_posts_saved_false (s : ClientState) (h : s.isLoading = false)
    (r : FetchResult) (c ti : String) (sv : Bool) :
    (handleSaveFile s r).sentRequests =
      s.sentRequests ++ [{ content := s.text, title := s.title, saved := false }] ∧
    (handleSaveFile s (FetchResult.success c ti sv)).saveState =
      (if sv then SaveState.linked false else SaveState.unlinked) := by
  constructor
  · rcases r with _ | ⟨c2, ti2, sv2⟩
    · simp [handleSaveFile, saveStart, saveFinish, markUnlinked, h]
    · cases sv2 <;>
        simp [handleSaveFile, saveStart, saveFinish, markLinked, markUnlinked, h]
  · cases sv <;>
      simp [handleSaveFile, saveStart, saveFinish, markLinked, markUnlinked, h]

/-- C10 witness: the first save from the initial state POSTs a body with
`saved: false` and adopts the linked-clean state from the echoed response. -/
theorem save_posts_saved_false_w :
    (handleSaveFile initState (FetchResult.success "x" "t" true)).sentRequests =
      [{ content := "", title := none, saved := false }] ∧
    (handleSaveFile initState (FetchResult.success "x" "t" true)).saveState =
      SaveState.linked false := by
  have h := save_posts_saved_false initState rfl
    (FetchResult.success "x" "t" true) "x" "t" true
  constructor
  · rw [h.1]; rfl
  · rw [h.2]; rfl

end SimplyWriter
